import Mathlib

/-!
Verification development for the TasksAPI repository.

We shallowly embed the password-validation pipeline (`api/tools/password_tools.py`,
`api/tools/validators.py`), the database manager (`api/db/manager.py`), the user and
report handlers and the background simulation (`api/main.py`, `api/models/models.py`)
as executable Lean definitions, and prove the specified properties about them.

Conventions of the embedding:
* Python values that can appear in keyword-argument dictionaries are modelled by `PyVal`
  (floats are modelled as exact rationals).
* Python dictionaries are modelled as association lists with unique keys, in insertion
  order (`Dict`).
* Fallible Python code is modelled with `Except PyErr`; raising an exception is the
  `.error` case.
* The filesystem / dynamic module loading used by the validator loader is modelled by
  `FileSystem`: a list of module files, each holding named classes whose constructor
  behaviour is a function from the keyword arguments to `Option String`
  (`some msg` models the constructor raising an exception rendered as `msg`).
-/

/-- Python exceptions that the embedded code can raise. -/
inductive PyErr where
  /-- `FileNotFoundError(msg)` -/
  | fileNotFound (msg : String)
  /-- `IndexError`, e.g. indexing an empty list -/
  | indexError
  /-- `ValueError(msg)` -/
  | valueError (msg : String)
  /-- `TypeError` -/
  | typeError
  /-- `KeyError` from `dict.pop` on a missing key -/
  | keyError
  /-- `passlib.exc.UnknownHashError`: hash could not be identified -/
  | unknownHashError
  deriving DecidableEq, Repr

/-- `str(error)` for the exceptions we model: the message carried by the exception. -/
def pyErrStr : PyErr → String
  | .fileNotFound msg => msg
  | .indexError => "list index out of range"
  | .valueError msg => msg
  | .typeError => "TypeError"
  | .keyError => "KeyError"
  | .unknownHashError => "hash could not be identified"

instance {ε α : Type} [DecidableEq ε] [DecidableEq α] : DecidableEq (Except ε α) := by
  intro a b
  cases a <;> cases b
  case error.error e f =>
    exact if h : e = f then .isTrue (by rw [h]) else .isFalse (by simpa using h)
  case ok.ok x y =>
    exact if h : x = y then .isTrue (by rw [h]) else .isFalse (by simpa using h)
  all_goals exact .isFalse (by simp)

/-- Python values appearing in keyword-argument dictionaries.
Floats are modelled as exact rationals. -/
inductive PyVal where
  | str (s : String)
  | int (n : Int)
  | bool (b : Bool)
  | rat (q : ℚ)
  deriving DecidableEq, Repr

/-- A Python `dict` as an insertion-ordered association list. -/
abbrev Dict := List (String × PyVal)

/-- `d[k]` / `d.get(k)` as an option. -/
def dictFind (d : Dict) (k : String) : Option PyVal :=
  (d.find? (fun kv => kv.1 = k)).map (fun kv => kv.2)

/-- `k in d`. -/
def dictHasKey (d : Dict) (k : String) : Bool :=
  (d.find? (fun kv => kv.1 = k)).isSome

/-- Python dict merge `\x7b**a, **b\x7d`: keys of `a` in their order with values
overridden by `b` where present, then the keys of `b` not in `a`, in their order. -/
def dictMerge (a b : Dict) : Dict :=
  (a.map (fun kv => (kv.1, (dictFind b kv.1).getD kv.2)))
    ++ b.filter (fun kv => ¬ dictHasKey a kv.1)

/-- `d.pop(k)`: the value at `k` together with the dictionary without `k`,
or `none` (modelling `KeyError`) when the key is absent. -/
def dictPop (d : Dict) (k : String) : Option (PyVal × Dict) :=
  match dictFind d k with
  | none => none
  | some v => some (v, d.filter (fun kv => kv.1 ≠ k))

/-!
## `Levenshtein.ratio` (python-Levenshtein)

`Levenshtein.ratio(a, b)` is `(lensum - ldist) / lensum` where `lensum = len(a) + len(b)`
and `ldist` is the Levenshtein distance in which a substitution costs 2 (insertions and
deletions cost 1); for two empty strings the ratio is defined to be 1.
We reuse the cost-parameterized `levenshtein` of Mathlib.
-/

/-- The cost structure of the python-Levenshtein `ratio`: insert/delete cost 1,
substitution costs 2. -/
def ratioCost : Levenshtein.Cost Char Char ℕ where
  delete _ := 1
  insert _ := 1
  substitute a b := if a = b then 0 else 2

/-- The Levenshtein distance between two strings with substitution cost 2. -/
def levDistance (a b : String) : ℕ :=
  levenshtein ratioCost a.toList b.toList

/-- `Levenshtein.ratio(a, b)` as an exact rational. -/
def similarity (a b : String) : ℚ :=
  let lensum := a.length + b.length
  if lensum = 0 then 1 else ((lensum : ℚ) - levDistance a b) / (lensum : ℚ)

example : levDistance "abcd" "abcde" = 1 := by decide
example : similarity "" "" = 1 := by decide

/-!
## Concrete validators (`api/tools/password_tools.py`)

The validator `__init__` (from `AbstractValidator`) immediately runs `_validate` on the
keyword arguments; `_validate` raising models a failed validation.  We embed the
`_validate` bodies of `LevenshteinPasswordValidator` and `StrengthPasswordValidator`.
-/

/-- The failure message of `LevenshteinPasswordValidator._validate` for field `field`
(the f-string `"Значение пароля слишком похоже на значение \x7bfield\x7d"`). -/
def levMsg (field : String) : String :=
  "Значение пароля слишком похоже на значение " ++ field

/-- A `PyVal` coerced to a number for an ordered comparison with a float, as Python
does for `similarity > coefficient`; `none` models the `TypeError` raised when the
coefficient is not a number. -/
def toRatVal : PyVal → Option ℚ
  | .int n => some (n : ℚ)
  | .rat q => some q
  | .bool b => some (if b then 1 else 0)
  | .str _ => none

/-- The `for field, value in other_fields.items()` loop of
`LevenshteinPasswordValidator._validate`: compute `Levenshtein.ratio(password, value)`
(a `TypeError` when `value` is not a string) and raise a `ValueError` naming the first
field whose similarity strictly exceeds the coefficient. -/
def levLoop (password : String) (coeffV : PyVal) : Dict → Except PyErr Unit
  | [] => .ok ()
  | (field, value) :: rest =>
    match value with
    | .str v =>
      match toRatVal coeffV with
      | none => .error .typeError
      | some c =>
        if similarity password v > c then .error (.valueError (levMsg field))
        else levLoop password coeffV rest
    | _ => .error .typeError

/-- `LevenshteinPasswordValidator._validate(**kwargs)`:
`password = kwargs.pop("password")` (a `KeyError` when absent; pydantic guarantees the
password is a string, so a non-string password is collapsed to a `TypeError`),
`coefficient = kwargs.get("coefficient", 0.7)` — note `coefficient` is *not* removed
from the iterated dictionary — then the comparison loop over the remaining entries. -/
def lev_validate (kwargs : Dict) : Except PyErr Unit :=
  match dictPop kwargs "password" with
  | none => .error .keyError
  | some (.str password, rest) =>
    let coeffV := (dictFind rest "coefficient").getD (.rat (7 / 10))
    levLoop password coeffV rest
  | some (_, _) => .error .typeError

/-- Count of uppercase letters in the password (`uppercase` rule of
`password_strength.PasswordPolicy`, ASCII model of the Unicode category `Lu`). -/
def countUppercase (p : String) : ℕ := (p.toList.filter Char.isUpper).length

/-- Count of digits in the password (`numbers` rule). -/
def countNumbers (p : String) : ℕ := (p.toList.filter Char.isDigit).length

/-- Count of special characters in the password (`special` rule: characters that are
neither letters nor digits). -/
def countSpecial (p : String) : ℕ :=
  (p.toList.filter (fun c => ¬ (c.isAlpha || c.isDigit))).length

/-- The three composition rules of the configured `PasswordPolicy`. -/
inductive StrengthRule where
  | uppercase
  | numbers
  | special
  deriving DecidableEq, Repr

/-- `PasswordPolicy.from_names(uppercase=u, numbers=n, special=s).test(p)`:
the list of rules the password fails. -/
def policyTest (p : String) (u n s : ℕ) : List StrengthRule :=
  (if countUppercase p < u then [StrengthRule.uppercase] else [])
    ++ (if countNumbers p < n then [StrengthRule.numbers] else [])
    ++ (if countSpecial p < s then [StrengthRule.special] else [])

/-- The generic failure message of `StrengthPasswordValidator._validate`. -/
def tooWeakMsg : String := "Введённый пароль слишком слабый!"

/-- `int`-valued policy parameter: `kwargs.get(key, default)`.  Parameters are
integers when present (as configured); a negative minimum behaves like 0, matching
`count >= negative` in Python. -/
def natParamD (kwargs : Dict) (k : String) (dflt : ℕ) : ℕ :=
  match dictFind kwargs k with
  | some (.int n) => n.toNat
  | _ => dflt

/-- `StrengthPasswordValidator._validate(**kwargs)`: build the policy from the
`uppercase` (default 1), `numbers` (default 0) and `special` (default 0) parameters,
and raise the single generic `ValueError` when `policy.test(password)` is non-empty. -/
def strength_validate (kwargs : Dict) : Except PyErr Unit :=
  match dictFind kwargs "password" with
  | some (.str p) =>
    let u := natParamD kwargs "uppercase" 1
    let n := natParamD kwargs "numbers" 0
    let s := natParamD kwargs "special" 0
    if policyTest p u n s ≠ [] then .error (.valueError tooWeakMsg) else .ok ()
  | _ => .error .typeError

example : strength_validate [("password", .str "Abc12!xy")] = .ok () := by decide
example : strength_validate [("password", .str "abc12xy")]
    = .error (.valueError tooWeakMsg) := by decide

/-!
## Validator loader and controller (`PasswordValidatorController`)

`__get_validators` resolves each key of the `PASSWORD_VALIDATORS` configuration
mapping (a dotted path `module.path.ClassName`) to a file under `BASE_DIR`, loads the
file as a module, and collects `Validator(obj, config)` named tuples for the classes
that exist in the loaded modules.  We model the filesystem and the loaded modules as
data: the constructor behaviour of a class is a function `Dict → Option String`, where
`some msg` models the constructor raising an exception whose `str` is `msg`.
-/

/-- A Python class available in a loaded module: its name and the observable
behaviour of constructing it (`some msg` = the constructor raises). -/
structure PyClass where
  name : String
  construct : Dict → Option String

/-- A module file on disk: its path and the classes defined in it. -/
structure PyModule where
  path : String
  classes : List PyClass

/-- The filesystem visible to the loader. -/
structure FileSystem where
  modules : List PyModule

/-- `os.path.isfile` + `importlib` loading, as a lookup of the module file. -/
def FileSystem.findFile (fs : FileSystem) (p : String) : Option PyModule :=
  fs.modules.find? (fun m => m.path = p)

/-- `hasattr(module, name)` + `getattr(module, name)` as a lookup. -/
def PyModule.findClass (m : PyModule) (c : String) : Option PyClass :=
  m.classes.find? (fun cls => cls.name = c)

/-- Accumulator loop for `splitDots`: split a character list at every dot. -/
def splitDotsAux : List Char → List Char → List String
  | [], acc => [String.mk acc.reverse]
  | c :: cs, acc =>
    if c = '.' then String.mk acc.reverse :: splitDotsAux cs []
    else splitDotsAux cs (c :: acc)

/-- Model of the Python call `s.split(".")` (executable model of the library routine): the segments
of `s` between dots, with empty segments kept. -/
def splitDots (s : String) : List String :=
  splitDotsAux s.toList []

example : splitDots "api.tools.custom" = ["api", "tools", "custom"] := by decide
example : splitDots "plain" = ["plain"] := by decide

/-- Model of `validator_str.rsplit(".", 1)`: split at the last dot; `none` models the
`ValueError` from unpacking when the string contains no dot. -/
def rsplit1 (s : String) : Option (String × String) :=
  match splitDots s with
  | [] => none
  | [_] => none
  | parts => some (String.intercalate "." parts.dropLast, parts.getLastD "")

/-- Model of `os.path.join(BASE_DIR, *module_name)` plus the `.py` suffix for the module portion of a
configuration key. -/
def entryFilePathOf (baseDir modulePath : String) : String :=
  String.intercalate "/" (baseDir :: splitDots modulePath) ++ ".py"

/-- The message of the `FileNotFoundError` raised for a missing module file. -/
def notFoundMsg (filePath : String) : String :=
  "Не удалось найти файл: " ++ filePath

/-- The `Validator` named-tuple (fields `obj` and `config`) entries returned by the
loader. -/
structure Validator where
  obj : PyClass
  config : Dict

/-- The loop body of `__get_validators` over the configuration entries, in order:
split the key at its last dot (`ValueError` when there is no dot), check the module
file exists (`FileNotFoundError` otherwise), take `module_name[1]` (an `IndexError`
when the module path has fewer than two segments), and append a `Validator` named
tuple when the class exists in the module — an absent class is skipped silently.
Any exception aborts the whole loop (the `except` clause re-raises what it catches). -/
def loadEntries (fs : FileSystem) (baseDir : String) :
    List (String × Dict) → Except PyErr (List Validator)
  | [] => .ok []
  | (vstr, params) :: rest =>
    match rsplit1 vstr with
    | none => .error (.valueError "not enough values to unpack")
    | some (modulePath, clsName) =>
      let filePath := entryFilePathOf baseDir modulePath
      match fs.findFile filePath with
      | none => .error (.fileNotFound (notFoundMsg filePath))
      | some m =>
        if (splitDots modulePath).length < 2 then .error .indexError
        else
          match m.findClass clsName with
          | some cls => (loadEntries fs baseDir rest).map (fun vs => ⟨cls, params⟩ :: vs)
          | none => loadEntries fs baseDir rest

/-- The possible shapes of the `PASSWORD_VALIDATORS` configuration value. -/
inductive PVConfig where
  /-- the configuration value is absent (`None`) -/
  | pynone
  /-- the configuration value is not a dictionary -/
  | notDict
  /-- a configuration dictionary of `validator path → parameter dict` entries -/
  | dict (entries : List (String × Dict))

/-- `PasswordValidatorController.__get_validators()`: the empty list when the
configuration is absent, falsy or not a `dict`, otherwise the loader loop.
(An empty `dict` is falsy in Python and also yields the empty list.) -/
def get_validators (fs : FileSystem) (baseDir : String) : PVConfig → Except PyErr (List Validator)
  | .pynone => .ok []
  | .notDict => .ok []
  | .dict entries => loadEntries fs baseDir entries

/-- The list comprehension of `PasswordValidatorController.validate`:
construct each validator with `\x7b**validator.config, **kwargs\x7d`, stopping at the
first constructor that raises.  The second component records the names of the
validator classes actually constructed, so that short-circuiting is observable. -/
def runValidators : List Validator → Dict → Option String × List String
  | [], _ => (none, [])
  | v :: rest, kwargs =>
    match v.obj.construct (dictMerge v.config kwargs) with
    | some msg => (some msg, [v.obj.name])
    | none =>
      let r := runValidators rest kwargs
      (r.1, v.obj.name :: r.2)

/-- `PasswordValidatorController.validate(**kwargs) -> bool | str`.
`__get_validators()` runs *outside* the `try` block, so a loading exception
propagates (the `.error` case).  Otherwise `Sum.inl msg` is the returned error string
and `Sum.inr true` is the returned `True`. -/
def validate (fs : FileSystem) (baseDir : String) (cfg : PVConfig) (kwargs : Dict) :
    Except PyErr (String ⊕ Bool) :=
  match get_validators fs baseDir cfg with
  | .error e => .error e
  | .ok vs =>
    match (runValidators vs kwargs).1 with
    | some msg => .ok (Sum.inl msg)
    | none => .ok (Sum.inr true)

/-- The names of the validator classes constructed during a `validate` call. -/
def constructedValidators (fs : FileSystem) (baseDir : String) (cfg : PVConfig)
    (kwargs : Dict) : List String :=
  match get_validators fs baseDir cfg with
  | .error _ => []
  | .ok vs => (runValidators vs kwargs).2

/-- A well-formed configuration key: it has a dot (so `rsplit` unpacks) and its module
portion has at least two segments (so `module_name[1]` does not raise). -/
def entryWF (vstr : String) : Bool :=
  match rsplit1 vstr with
  | some (mp, _) => 2 ≤ (splitDots mp).length
  | none => false

/-- Whether the module file referenced by a configuration key exists on the
filesystem. -/
def entryFileFound (fs : FileSystem) (baseDir vstr : String) : Bool :=
  match rsplit1 vstr with
  | some (mp, _) => (fs.findFile (entryFilePathOf baseDir mp)).isSome
  | none => false

/-- The module file path referenced by a configuration key (junk when the key has no
dot). -/
def entryPathD (baseDir vstr : String) : String :=
  match rsplit1 vstr with
  | some (mp, _) => entryFilePathOf baseDir mp
  | none => ""

/-- The class a configuration key resolves to: the name after the last dot, looked up
in the module file the portion before it denotes. -/
def resolveClass (fs : FileSystem) (baseDir vstr : String) : Option PyClass :=
  match rsplit1 vstr with
  | none => none
  | some (mp, cn) =>
    match fs.findFile (entryFilePathOf baseDir mp) with
    | none => none
    | some m => m.findClass cn

/-!
## `PasswordHashController` (`api/tools/password_tools.py`)

The controller delegates to `passlib.context.CryptContext(schemes=..., deprecated="auto")`
with the scheme list taken from the (external) configuration.  We model a passlib hash
scheme by its documented interface: `identify` recognizes the hash format of the scheme,
`verifyFn` checks a secret against a hash in that format, and `hashFn` produces a new
hash.  Per the documented passlib contract, `CryptContext.verify(secret, hash)` locates
the first configured scheme whose format matches `hash` and raises
`passlib.exc.UnknownHashError` when no configured scheme identifies the hash;
`CryptContext.hash(secret)` uses the first (default) scheme.
-/

/-- A passlib hash scheme, by its documented handler interface. -/
structure HashScheme where
  name : String
  identify : String → Bool
  verifyFn : String → String → Bool
  hashFn : String → String

/-- `CryptContext(schemes=..., deprecated="auto")`: the configured scheme list. -/
structure CryptContext where
  schemes : List HashScheme

/-- Model of `CryptContext.verify(secret, hash)` per the documented passlib contract: dispatch on
the first scheme identifying the hash; raise `UnknownHashError` when the hash matches
no configured scheme. -/
def CryptContext.verify (ctx : CryptContext) (secret hash : String) : Except PyErr Bool :=
  match ctx.schemes.find? (fun s => s.identify hash) with
  | none => .error .unknownHashError
  | some s => .ok (s.verifyFn secret hash)

/-- `CryptContext.hash(secret)`: hash under the first (default) scheme.
A context with an empty scheme list is a configuration error in passlib; we return the
secret unchanged as an unused fallback. -/
def CryptContext.hashSecret (ctx : CryptContext) (secret : String) : String :=
  match ctx.schemes with
  | [] => secret
  | s :: _ => s.hashFn secret

/-- `PasswordHashController.hash_password`: a direct delegation to
`self.crypt_context.hash(password)`. -/
def hash_password (ctx : CryptContext) (password : String) : String :=
  ctx.hashSecret password

/-- `PasswordHashController.check_password`: a direct delegation to
`self.crypt_context.verify(password, hashed_password)` — the method installs no
exception handling, so whatever `verify` raises propagates to the caller. -/
def check_password (ctx : CryptContext) (password hashed_password : String) :
    Except PyErr Bool :=
  ctx.verify password hashed_password

/-!
## `Manager` (`api/db/manager.py`) and the report simulation (`api/main.py`)

Database tables are modelled as lists of records; SQLAlchemy filter expressions become
boolean predicates on records.
-/

/-- `Manager.get`: `self.filter(model_db, filters)[0]` — indexing the filtered list,
so an empty result raises an `IndexError` instead of producing `None`. -/
def managerGet {α : Type} (rows : List α) (pred : α → Bool) : Except PyErr α :=
  match rows.filter pred with
  | [] => .error .indexError
  | r :: _ => .ok r

/-- The status column of the `reports` table (`ReportStatus` in `api/models/models.py`). -/
inductive ReportStatus where
  | created
  | running
  | completed
  | failed
  deriving DecidableEq, Repr

/-- A row of the `reports` table (the columns the embedded code touches; the
`uuid.UUID` keys are abstracted to naturals). -/
structure ReportRec where
  report_id : Nat
  user_id : Nat
  status : ReportStatus
  deriving DecidableEq, Repr

/-- Model of a `manager.save` status write on the reports table: update the status of
the row with the given key. -/
def saveReportStatus (db : List ReportRec) (rid : Nat) (st : ReportStatus) : List ReportRec :=
  db.map (fun r => if r.report_id = rid then { r with status := st } else r)

/-- The random draws `[1, 3, 5]` that make the simulated task end as `FAILED`. -/
def failedDraws : List Nat := [1, 3, 5]

/-- `simulation_long_process(record_id)` (`api/main.py`): look the report up by its id
(an `IndexError` propagates when it does not exist, since `manager.get` runs before the
`try` block), then — with sleeps elided — write `RUNNING`, draw
`failed_status_value = random.randint(0, 10)` (the parameter `failedVal`), and write
`COMPLETED`, or `FAILED` when the draw is in `[1, 3, 5]`.  The result is the table
after the run together with the sequence of statuses written. -/
def simulation_long_process (db : List ReportRec) (record_id : Nat) (failedVal : Nat) :
    Except PyErr (List ReportRec × List ReportStatus) :=
  match managerGet db (fun r => r.report_id = record_id) with
  | .error e => .error e
  | .ok _ =>
    let db1 := saveReportStatus db record_id ReportStatus.running
    let final := if failedVal ∈ failedDraws then ReportStatus.failed else ReportStatus.completed
    let db2 := saveReportStatus db1 record_id final
    .ok (db2, [ReportStatus.running, final])

/-- The responses of the report status endpoint `check_report`. -/
inductive ReportResponse where
  /-- HTTP 200 with the report id and its current status -/
  | okStatus (report_id : Nat) (status : ReportStatus)
  /-- HTTP 500 (the `except` branch, e.g. `manager.get` raising on a missing report) -/
  | serverError
  deriving DecidableEq, Repr

/-- `check_report(report_id)` (`api/main.py`): `manager.get` by report id and user id,
answering 200 with the current status, or 500 when the lookup raises.  The function
only reads the table. -/
def check_report (db : List ReportRec) (report_id user_id : Nat) : ReportResponse :=
  match managerGet db (fun r => r.report_id = report_id && r.user_id = user_id) with
  | .error _ => .serverError
  | .ok r => .okStatus r.report_id r.status

/-!
## Task lookup handler `get_task` (`api/main.py`)
-/

/-- A row of the `tasks` table (the columns `serialize_task` reads; dates are kept as
their string rendering and the `uuid.UUID` keys are abstracted to naturals). -/
structure TaskRec where
  task_id : Nat
  user_id : Nat
  name : String
  description : String
  start_date : String
  stop_date : String
  expired : Bool
  deriving DecidableEq, Repr

/-- `ApiSerializers.serialize_task`: the task row as a dictionary of strings. -/
def serialize_task (t : TaskRec) : List (String × String) :=
  [("name", t.name),
   ("description", t.description),
   ("start_date", t.start_date),
   ("stop_date", t.stop_date),
   ("expired", toString t.expired),
   ("task_id", toString t.task_id)]

/-- Python truthiness of an ORM record object: objects without `__bool__`/`__len__`
are always truthy. -/
def taskTruthy (_ : TaskRec) : Bool := true

/-- The responses of the single-task endpoint `get_task`. -/
inductive TaskResponse where
  /-- HTTP 200 with the serialized task -/
  | okJson (body : List (String × String))
  /-- HTTP 404 (`if not task` branch) -/
  | notFound
  /-- HTTP 500 (the `except` branch) -/
  | serverError
  deriving DecidableEq, Repr

/-- `get_task(task_id)` (`api/main.py`): `manager.get` by task id and user id inside a
`try` block whose `except` answers 500; then `if not task: 404`; then 200 with the
serialized task. -/
def get_task (tasks : List TaskRec) (task_id user_id : Nat) : TaskResponse :=
  match managerGet tasks (fun t => t.task_id = task_id && t.user_id = user_id) with
  | .error _ => .serverError
  | .ok t =>
    if ¬ taskTruthy t then .notFound
    else .okJson (serialize_task t)

/-!
## User creation and update flows (`api/models/models.py`, `api/main.py`)

A request body for `POST users/` / `PUT users/` is validated by pydantic before the
handler runs: `BaseUser.password_validator` runs the validator controller on the
password and the other profile fields, raises on a returned error string (FastAPI then
answers 422 and the handler never runs), and otherwise *replaces the password of the model
with its hash*.  The handlers then copy the validated fields into the database.
-/

/-- The body of a user request (`BaseUser`): pydantic guarantees all four fields are
strings. -/
structure UserRecord where
  username : String
  password : String
  name : String
  email : String
  deriving DecidableEq, Repr

/-- A row of the `users` table. -/
structure UserDBRec where
  user_id : Nat
  username : String
  password : String
  name : String
  email : String
  deriving DecidableEq, Repr

/-- `BaseUser.password_validator` (`api/models/models.py`): run
`PasswordValidatorController().validate(password=..., username=..., name=..., email=...)`;
raise `ValueError` on a returned error string; otherwise overwrite the
`password` of the model with `PasswordHashController().hash_password(self.password)`.
The hash function is abstracted as `hashFn`. -/
def password_validator (fs : FileSystem) (baseDir : String) (cfg : PVConfig)
    (hashFn : String → String) (u : UserRecord) : Except PyErr UserRecord :=
  match validate fs baseDir cfg
      [("password", .str u.password), ("username", .str u.username),
       ("name", .str u.name), ("email", .str u.email)] with
  | .error e => .error e
  | .ok (Sum.inl msg) => .error (.valueError msg)
  | .ok (Sum.inr _) => .ok { u with password := hashFn u.password }

/-- `serializer_tool.items_attr(user.model_fields_set, user)` for a user model: the
dictionary of the field values of the model (after validation). -/
def items_attr_user (u : UserRecord) : List (String × String) :=
  [("username", u.username), ("password", u.password), ("name", u.name), ("email", u.email)]

/-- `manager.create(UserDB, data)`: append a new row built from the data dictionary,
with a fresh primary key. -/
def manager_create_user (db : List UserDBRec) (newId : Nat) (u : UserRecord) :
    List UserDBRec × UserDBRec :=
  let row : UserDBRec :=
    { user_id := newId, username := u.username, password := u.password,
      name := u.name, email := u.email }
  (db ++ [row], row)

/-- `Manager._field_update` on a user row: set each field present in the data. -/
def field_update_user (row : UserDBRec) (u : UserRecord) : UserDBRec :=
  { row with username := u.username, password := u.password, name := u.name,
             email := u.email }

/-- `create_user` (`POST users/`, `api/main.py`), composed with the pydantic
validation of its request body: on validation success, persist the field dictionary of
the validated model, add `pk`, and delete the password key from the data before answering.
Returns the new table and the response body. -/
def create_user (fs : FileSystem) (baseDir : String) (cfg : PVConfig)
    (hashFn : String → String) (db : List UserDBRec) (newId : Nat) (raw : UserRecord) :
    Except PyErr (List UserDBRec × List (String × String)) :=
  match password_validator fs baseDir cfg hashFn raw with
  | .error e => .error e
  | .ok u =>
    let data := items_attr_user u
    let (db2, row) := manager_create_user db newId u
    let data2 := data ++ [("pk", toString row.user_id)]
    let data3 := data2.filter (fun kv => kv.1 ≠ "password")
    .ok (db2, data3)

/-- `update_user` (`PUT users/`, `api/main.py`), composed with the pydantic validation
of its request body: on validation success, `manager.update(UserDB, str(uid), uid, data)`.
In the source the `key_field` argument is the *value* `current_user.user_id`, so the
query filter compares that value with itself: the condition is constantly true and the
first row of the users table is updated.  The response body is the data dictionary,
password included. -/
def update_user (fs : FileSystem) (baseDir : String) (cfg : PVConfig)
    (hashFn : String → String) (db : List UserDBRec) (raw : UserRecord) :
    Except PyErr (List UserDBRec × List (String × String)) :=
  match password_validator fs baseDir cfg hashFn raw with
  | .error e => .error e
  | .ok u =>
    let data := items_attr_user u
    let db2 := match db with
      | [] => []
      | row :: rest => field_update_user row u :: rest
    .ok (db2, data)

/-- The user row persisted by the creation flow: every profile field of the validated
model, whose password is already the hash. -/
def storedUserRow (newId : Nat) (hashFn : String → String) (raw : UserRecord) : UserDBRec where
  user_id := newId
  username := raw.username
  password := hashFn raw.password
  name := raw.name
  email := raw.email

/-- The user row after the update flow rewrote an existing row with the validated
fields of the validated model. -/
def updatedUserRow (r0 : UserDBRec) (hashFn : String → String) (raw : UserRecord) : UserDBRec :=
  { r0 with username := raw.username, password := hashFn raw.password, name := raw.name,
            email := raw.email }

/-- A concrete report row, in its initial `Created` status, for evaluating the
background-simulation claims. -/
def demoReport : ReportRec where
  report_id := 1
  user_id := 7
  status := ReportStatus.created

/-- A concrete task row used to evaluate the claims about `get_task`. -/
def demoTask : TaskRec where
  task_id := 1
  user_id := 2
  name := "t"
  description := "d"
  start_date := "2024-01-01"
  stop_date := "2024-02-01"
  expired := false

/-- A filesystem with no module files, for concrete evaluation. -/
def emptyFs : FileSystem := ⟨[]⟩

/-- A demonstration hash function standing in for the configured passlib scheme. -/
def demoHash (s : String) : String := "$5$" ++ s

/-- A concrete user request body. -/
def demoRawUser : UserRecord where
  username := "user01"
  password := "Passw0rd!"
  name := "Ann"
  email := "ann@example.com"

/-- A concrete pre-existing row of the users table. -/
def demoDbRow : UserDBRec where
  user_id := 1
  username := "older"
  password := "$5$old"
  name := "Old"
  email := "old@example.com"

/-- A demonstration passlib scheme for concrete evaluation: it identifies exactly the
hashes carrying its `$5$` prefix, in the manner of real passlib handlers. -/
def sha256Like : HashScheme where
  name := "sha256_crypt"
  identify := fun h => "$5$".toList.isPrefixOf h.toList
  verifyFn := fun secret h => h = "$5$" ++ secret
  hashFn := fun secret => "$5$" ++ secret

/-- A demonstration context configured with the single scheme `sha256Like`. -/
def demoCtx : CryptContext := ⟨[sha256Like]⟩

/-- A demonstration validator class whose constructor always succeeds. -/
def demoClass : PyClass where
  name := "PresentValidator"
  construct := fun _ => none

/-- A demonstration module file defining exactly `demoClass`. -/
def demoModule : PyModule where
  path := "base/api/tools/custom.py"
  classes := [demoClass]

/-- A filesystem carrying the single demonstration module. -/
def demoLoaderFs : FileSystem := ⟨[demoModule]⟩

/-- A configuration entry resolving to an existing file and an existing class. -/
def demoEntryPresent : String × Dict := ("api.tools.custom.PresentValidator", [])

/-- A configuration entry resolving to an existing file but an absent class. -/
def demoEntryAbsentClass : String × Dict := ("api.tools.custom.MissingValidator", [])

/-- A configuration entry whose module file does not exist. -/
def demoEntryMissingFile : String × Dict := ("api.tools.nowhere.AnyValidator", [])

/-- A configuration referencing a module file that does not exist. -/
def missingCfg : PVConfig := .dict [("api.tools.nothere.SomeValidator", [])]

/-- A validator class whose constructor always raises with a fixed message. -/
def demoFailingClass : PyClass where
  name := "FailingValidator"
  construct := fun _ => some "first failure"

/-- A second demonstration module defining both the failing and the succeeding
class, to exercise fail-fast construction. -/
def demoModule2 : PyModule where
  path := "base/api/tools/duo.py"
  classes := [demoFailingClass, demoClass]

/-- A filesystem for the fail-fast scenario. -/
def demoFs2 : FileSystem := ⟨[demoModule2]⟩

/-- A configuration listing the failing validator first and the succeeding one
second. -/
def duoCfg : PVConfig :=
  .dict [("api.tools.duo.FailingValidator", []), ("api.tools.duo.PresentValidator", [])]

/-- The auxiliary comparison fields, as the (string-valued) keyword arguments they
form. -/
def fieldsToDict (fields : List (String × String)) : Dict :=
  fields.map (fun fv => (fv.1, PyVal.str fv.2))

/-!
## Theorems
-/

lemma password_validator_ok {fs : FileSystem} {baseDir : String} {cfg : PVConfig}
    {hashFn : String → String} {raw u : UserRecord}
    (h : password_validator fs baseDir cfg hashFn raw = .ok u) :
    u = { raw with password := hashFn raw.password } := by
  unfold password_validator at h
  split at h
  · exact absurd h (by simp)
  · exact absurd h (by simp)
  · injection h with h2
    exact h2.symm

lemma create_user_eq (fs : FileSystem) (baseDir : String) (cfg : PVConfig)
    (hashFn : String → String) (db : List UserDBRec) (newId : Nat) (raw : UserRecord)
    (h : password_validator fs baseDir cfg hashFn raw
      = .ok { raw with password := hashFn raw.password }) :
    create_user fs baseDir cfg hashFn db newId raw
      = .ok (db ++ [storedUserRow newId hashFn raw],
          [("username", raw.username), ("name", raw.name), ("email", raw.email),
           ("pk", toString newId)]) := by
  unfold create_user
  rw [h]
  rfl

lemma update_user_eq (fs : FileSystem) (baseDir : String) (cfg : PVConfig)
    (hashFn : String → String) (r0 : UserDBRec) (rest : List UserDBRec) (raw : UserRecord)
    (h : password_validator fs baseDir cfg hashFn raw
      = .ok { raw with password := hashFn raw.password }) :
    update_user fs baseDir cfg hashFn (r0 :: rest) raw
      = .ok (updatedUserRow r0 hashFn raw :: rest,
          [("username", raw.username), ("password", hashFn raw.password),
           ("name", raw.name), ("email", raw.email)]) := by
  unfold update_user
  rw [h]
  rfl

/-- C8: in the user creation and user update flows, only the one-way hash of the
password crosses the persistence boundary: on a validated request the row handed to
`manager.create` (POST) resp. written by `manager.update` (PUT) carries
`hashFn(plaintext)` in its password field, and as long as the hash function does not
fix the plaintext, the stored password differs from the plaintext. -/
theorem c8_only_hash_persisted (fs : FileSystem) (baseDir : String) (cfg : PVConfig)
    (hashFn : String → String) (db : List UserDBRec) (newId : Nat) (raw u : UserRecord)
    (h : password_validator fs baseDir cfg hashFn raw = .ok u) :
    (∃ body, create_user fs baseDir cfg hashFn db newId raw
        = .ok (db ++ [storedUserRow newId hashFn raw], body))
    ∧ (storedUserRow newId hashFn raw).password = hashFn raw.password
    ∧ (∀ r0 rest, db = r0 :: rest →
        ∃ body2, update_user fs baseDir cfg hashFn db raw
          = .ok (updatedUserRow r0 hashFn raw :: rest, body2))
    ∧ (∀ r0, (updatedUserRow r0 hashFn raw).password = hashFn raw.password)
    ∧ (hashFn raw.password ≠ raw.password →
        (storedUserRow newId hashFn raw).password ≠ raw.password) := by
  have hu := password_validator_ok h
  rw [hu] at h
  refine ⟨⟨_, create_user_eq fs baseDir cfg hashFn db newId raw h⟩, rfl, ?_,
    fun r0 => rfl, fun hne => hne⟩
  intro r0 rest hdb
  subst hdb
  exact ⟨_, update_user_eq fs baseDir cfg hashFn r0 rest raw h⟩

/-- C10: on a successful full user update (PUT `users/`) the response body includes
the `password` field carrying the stored password hash, whereas user creation
(POST `users/`) deletes the `password` field from its response data before answering
(the response carries the remaining fields and the new `pk`). -/
theorem c10_password_field_in_responses (fs : FileSystem) (baseDir : String)
    (cfg : PVConfig) (hashFn : String → String) (db : List UserDBRec) (newId : Nat)
    (r0 : UserDBRec) (rest : List UserDBRec) (raw u : UserRecord)
    (h : password_validator fs baseDir cfg hashFn raw = .ok u) :
    (∃ db2 body, create_user fs baseDir cfg hashFn db newId raw = .ok (db2, body)
      ∧ body.find? (fun kv => kv.1 = "password") = none
      ∧ ("pk", toString newId) ∈ body)
    ∧ (∃ body2, update_user fs baseDir cfg hashFn (r0 :: rest) raw
        = .ok (updatedUserRow r0 hashFn raw :: rest, body2)
      ∧ ("password", hashFn raw.password) ∈ body2) := by
  have hu := password_validator_ok h
  rw [hu] at h
  constructor
  · refine ⟨_, _, create_user_eq fs baseDir cfg hashFn db newId raw h, ?_, ?_⟩
    · simp [List.find?]
    · simp
  · refine ⟨_, update_user_eq fs baseDir cfg hashFn r0 rest raw h, ?_⟩
    simp

/-- C9: for every model and filter list matching no records, `Manager.get` raises
(`IndexError` from indexing the empty filtered list) instead of returning a null
value; consequently the `if not task` check of `get_task` is unreachable — the
handler never answers 404 — and a lookup of a missing record surfaces through the
exception branch as a 500-class response. -/
theorem c9_manager_get_raises_on_empty {α : Type} (rows : List α) (pred : α → Bool)
    (tasks : List TaskRec) (task_id user_id : Nat)
    (hempty : rows.filter pred = [])
    (hmiss : tasks.filter (fun t => t.task_id = task_id && t.user_id = user_id) = []) :
    managerGet rows pred = .error .indexError
      ∧ get_task tasks task_id user_id = TaskResponse.serverError
      ∧ ∀ (ts : List TaskRec) (tid uid : Nat), get_task ts tid uid ≠ TaskResponse.notFound := by
  refine ⟨?_, ?_, ?_⟩
  · simp [managerGet, hempty]
  · simp [get_task, managerGet, hmiss]
  · intro ts tid uid
    unfold get_task managerGet
    cases ts.filter (fun t => t.task_id = tid && t.user_id = uid) with
    | nil => simp
    | cons r rs => simp [taskTruthy]

lemma saveReport_length (db : List ReportRec) (rid : Nat) (st : ReportStatus) :
    (saveReportStatus db rid st).length = db.length := by
  simp [saveReportStatus]

lemma saveReport_status_of_mem {db : List ReportRec} {rid : Nat} {st : ReportStatus}
    {r : ReportRec} (h : r ∈ saveReportStatus db rid st) (hid : r.report_id = rid) :
    r.status = st := by
  simp only [saveReportStatus, List.mem_map] at h
  obtain ⟨pre, _, heq⟩ := h
  by_cases hc : pre.report_id = rid
  · rw [if_pos hc] at heq
    rw [← heq]
  · rw [if_neg hc] at heq
    rw [← heq] at hid
    exact absurd hid hc

lemma saveReport_mem_updated {db : List ReportRec} {r : ReportRec} (rid : Nat)
    (st : ReportStatus) (h : r ∈ db) (hid : r.report_id = rid) :
    { r with status := st } ∈ saveReportStatus db rid st := by
  simp only [saveReportStatus, List.mem_map]
  exact ⟨r, h, by rw [if_pos hid]⟩

/-- C1 counterexample: the tracked entry does *not* go through the phases
Start → Complete → ToBeRemoved and is never removed.  Running the scheduled unit to
completion on a one-report store (with random draw 0) writes the statuses
`Running, Completed`, and afterwards the status lookup with the key of the unit still
answers with the current status of the record — there is no not-found result after the
run, because the record is updated in place and never deleted. -/
theorem c1_counterexample :
    simulation_long_process [demoReport] 1 0
      = .ok ([{ report_id := 1, user_id := 7, status := ReportStatus.completed }],
          [ReportStatus.running, ReportStatus.completed])
    ∧ check_report [{ report_id := 1, user_id := 7, status := ReportStatus.completed }] 1 7
      = ReportResponse.okStatus 1 ReportStatus.completed := by
  decide

/-- C1 (amended): for every scheduled background unit on an existing report record,
the status of the record is written `Running` and then exactly one of `Completed` or
`Failed` — `Failed` exactly when the random draw is one of 1, 3, 5 — the record is
never removed from the store (the store keeps its size), and a status lookup with the
key of the report afterwards returns the current status of the record, the lookup itself being
a pure read. -/
theorem c1_simulation_lifecycle (db : List ReportRec) (rid uid fv : Nat) (r : ReportRec)
    (hr : r ∈ db) (hrid : r.report_id = rid) (huid : r.user_id = uid) :
    ∃ db2,
      simulation_long_process db rid fv
        = .ok (db2, [ReportStatus.running,
            if fv ∈ failedDraws then ReportStatus.failed else ReportStatus.completed])
      ∧ db2.length = db.length
      ∧ check_report db2 rid uid
        = ReportResponse.okStatus rid
            (if fv ∈ failedDraws then ReportStatus.failed else ReportStatus.completed) := by
  refine ⟨saveReportStatus (saveReportStatus db rid ReportStatus.running) rid
      (if fv ∈ failedDraws then ReportStatus.failed else ReportStatus.completed),
    ?_, ?_, ?_⟩
  · have hfil : r ∈ db.filter (fun x => x.report_id = rid) :=
      List.mem_filter.mpr ⟨hr, by simp [hrid]⟩
    cases hc : db.filter (fun x => x.report_id = rid) with
    | nil => rw [hc] at hfil; cases hfil
    | cons q qs => simp [simulation_long_process, managerGet, hc]
  · rw [saveReport_length, saveReport_length]
  · have h1 : ({ r with status := ReportStatus.running } : ReportRec)
        ∈ saveReportStatus db rid ReportStatus.running :=
      saveReport_mem_updated rid ReportStatus.running hr hrid
    have h2 : ({ r with status :=
          (if fv ∈ failedDraws then ReportStatus.failed else ReportStatus.completed) } : ReportRec)
        ∈ saveReportStatus (saveReportStatus db rid ReportStatus.running) rid
            (if fv ∈ failedDraws then ReportStatus.failed else ReportStatus.completed) := by
      exact @saveReport_mem_updated (saveReportStatus db rid ReportStatus.running)
        { r with status := ReportStatus.running } rid
        (if fv ∈ failedDraws then ReportStatus.failed else ReportStatus.completed) h1 hrid
    have hfil2 : ({ r with status :=
          (if fv ∈ failedDraws then ReportStatus.failed else ReportStatus.completed) } : ReportRec)
        ∈ (saveReportStatus (saveReportStatus db rid ReportStatus.running) rid
            (if fv ∈ failedDraws then ReportStatus.failed else ReportStatus.completed)).filter
          (fun x => x.report_id = rid && x.user_id = uid) :=
      List.mem_filter.mpr ⟨h2, by simp [hrid, huid]⟩
    cases hc : (saveReportStatus (saveReportStatus db rid ReportStatus.running) rid
        (if fv ∈ failedDraws then ReportStatus.failed else ReportStatus.completed)).filter
          (fun x => x.report_id = rid && x.user_id = uid) with
    | nil => rw [hc] at hfil2; cases hfil2
    | cons q qs =>
      have hq : q ∈ (saveReportStatus (saveReportStatus db rid ReportStatus.running) rid
          (if fv ∈ failedDraws then ReportStatus.failed else ReportStatus.completed)).filter
            (fun x => x.report_id = rid && x.user_id = uid) := by
        rw [hc]; exact List.mem_cons_self q qs
      have hqmem := (List.mem_filter.mp hq).1
      have hqpred := (List.mem_filter.mp hq).2
      have hqid : q.report_id = rid := by
        have := hqpred
        simp only [Bool.and_eq_true, decide_eq_true_eq] at this
        exact this.1
      have hqstat := saveReport_status_of_mem hqmem hqid
      simp [check_report, managerGet, hc, hqid, hqstat]

theorem c1_simulation_lifecycle_witness :
    demoReport ∈ [demoReport] ∧
    ∃ db2,
      simulation_long_process [demoReport] 1 4
        = .ok (db2, [ReportStatus.running,
            if 4 ∈ failedDraws then ReportStatus.failed else ReportStatus.completed])
      ∧ db2.length = 1
      ∧ check_report db2 1 7
        = ReportResponse.okStatus 1
            (if 4 ∈ failedDraws then ReportStatus.failed else ReportStatus.completed) :=
  ⟨by decide,
   c1_simulation_lifecycle [demoReport] 1 7 4 demoReport (by decide) (by decide) (by decide)⟩

theorem c9_manager_get_raises_on_empty_witness :
    ([demoTask].filter (fun t => t.task_id = 9 && t.user_id = 2) = [])
      ∧ managerGet [demoReport] (fun r => r.report_id = 3) = .error .indexError
      ∧ get_task [demoTask] 9 2 = TaskResponse.serverError :=
  ⟨by decide,
   (c9_manager_get_raises_on_empty [demoReport] (fun r => r.report_id = 3) [demoTask] 9 2
      (by decide) (by decide)).1,
   (c9_manager_get_raises_on_empty [demoReport] (fun r => r.report_id = 3) [demoTask] 9 2
      (by decide) (by decide)).2.1⟩

lemma policyTest_eq_nil (p : String) (u n s : ℕ) :
    policyTest p u n s = [] ↔
      u ≤ countUppercase p ∧ n ≤ countNumbers p ∧ s ≤ countSpecial p := by
  simp [policyTest, List.append_eq_nil, Nat.not_lt, ite_eq_right_iff]

lemma strengthKey (p : String) (u n s : ℕ) :
    (if policyTest p u n s ≠ [] then (Except.error (PyErr.valueError tooWeakMsg) : Except PyErr Unit)
     else Except.ok ())
      = (if u ≤ countUppercase p ∧ n ≤ countNumbers p ∧ s ≤ countSpecial p
         then Except.ok () else Except.error (PyErr.valueError tooWeakMsg)) := by
  by_cases hc : u ≤ countUppercase p ∧ n ≤ countNumbers p ∧ s ≤ countSpecial p
  · rw [if_pos hc, if_neg]
    simp [policyTest_eq_nil, hc]
  · rw [if_neg hc, if_pos]
    simp only [ne_eq, policyTest_eq_nil]
    exact hc

/-- C6: the Strength validator succeeds exactly when the password has at least the
configured minimum number of uppercase letters (default 1), digits (default 0) and
special characters (default 0); when any configured minimum is unmet it fails with
the single generic password-too-weak message, which never names the violated rule.
The first equation covers explicitly configured minimums, the second the defaults. -/
theorem c6_strength_validator (p : String) (u n s : ℕ) :
    strength_validate [("password", PyVal.str p), ("uppercase", PyVal.int u),
        ("numbers", PyVal.int n), ("special", PyVal.int s)]
      = (if u ≤ countUppercase p ∧ n ≤ countNumbers p ∧ s ≤ countSpecial p
         then Except.ok () else Except.error (PyErr.valueError tooWeakMsg))
    ∧ strength_validate [("password", PyVal.str p)]
      = (if 1 ≤ countUppercase p then Except.ok ()
         else Except.error (PyErr.valueError tooWeakMsg)) := by
  constructor
  · have e0 : strength_validate [("password", PyVal.str p), ("uppercase", PyVal.int u),
        ("numbers", PyVal.int n), ("special", PyVal.int s)]
        = (if policyTest p u n s ≠ [] then .error (.valueError tooWeakMsg) else .ok ()) := rfl
    rw [e0, strengthKey]
  · have e0 : strength_validate [("password", PyVal.str p)]
        = (if policyTest p 1 0 0 ≠ [] then .error (.valueError tooWeakMsg) else .ok ()) := rfl
    rw [e0, strengthKey]
    simp

theorem c8_only_hash_persisted_witness :
    (password_validator emptyFs "base" PVConfig.pynone demoHash demoRawUser
      = .ok { demoRawUser with password := demoHash demoRawUser.password })
    ∧ ∃ body, create_user emptyFs "base" PVConfig.pynone demoHash [demoDbRow] 5 demoRawUser
        = .ok ([demoDbRow] ++ [storedUserRow 5 demoHash demoRawUser], body) :=
  ⟨rfl,
   (c8_only_hash_persisted emptyFs "base" PVConfig.pynone demoHash [demoDbRow] 5
      demoRawUser _ rfl).1⟩

theorem c10_password_field_in_responses_witness :
    (password_validator emptyFs "base" PVConfig.pynone demoHash demoRawUser
      = .ok { demoRawUser with password := demoHash demoRawUser.password })
    ∧ ∃ body2, update_user emptyFs "base" PVConfig.pynone demoHash
          (demoDbRow :: []) demoRawUser
        = .ok (updatedUserRow demoDbRow demoHash demoRawUser :: [], body2)
      ∧ ("password", demoHash demoRawUser.password) ∈ body2 :=
  ⟨rfl,
   (c10_password_field_in_responses emptyFs "base" PVConfig.pynone demoHash [] 5
      demoDbRow [] demoRawUser _ rfl).2⟩

/-- C2 counterexample: `check_password` does *not* return a boolean on a malformed
hash — `CryptContext.verify` raises `UnknownHashError` when no configured scheme
identifies the supplied hash, and `check_password` installs no exception handling, so
the exception propagates instead of yielding `false`. -/
theorem c2_counterexample :
    check_password demoCtx "password1" "not-a-hash" = .error PyErr.unknownHashError
      ∧ ∀ b : Bool, check_password demoCtx "password1" "not-a-hash" ≠ .ok b := by
  constructor
  · decide
  · intro b
    cases b <;> decide

/-- C2 (amended): `check_password` returns the boolean verification result of the
first configured scheme that identifies the stored hash, and on a malformed or
foreign hash — one no configured scheme identifies — it propagates the passlib
`UnknownHashError` rather than returning `false`. -/
theorem c2_check_password_behaviour (ctx : CryptContext) (p h : String) :
    ((∀ s ∈ ctx.schemes, s.identify h = false) →
        check_password ctx p h = .error PyErr.unknownHashError)
      ∧ (∀ s, ctx.schemes.find? (fun s => s.identify h) = some s →
        check_password ctx p h = .ok (s.verifyFn p h)) := by
  constructor
  · intro hall
    have hnone : ctx.schemes.find? (fun s => s.identify h) = none := by
      rw [List.find?_eq_none]
      intro s hs
      simp [hall s hs]
    simp [check_password, CryptContext.verify, hnone]
  · intro s hfind
    simp [check_password, CryptContext.verify, hfind]

theorem c2_check_password_behaviour_witness :
    (∀ s ∈ demoCtx.schemes, s.identify "zzz" = false)
      ∧ check_password demoCtx "pw" "zzz" = .error PyErr.unknownHashError
      ∧ check_password demoCtx "pw" "$5$pw" = .ok true :=
  ⟨by decide,
   (c2_check_password_behaviour demoCtx "pw" "zzz").1 (by decide),
   by
    have h := (c2_check_password_behaviour demoCtx "pw" "$5$pw").2 sha256Like rfl
    simpa [sha256Like] using h⟩

lemma loadEntries_all_found (fs : FileSystem) (baseDir : String)
    (entries : List (String × Dict))
    (h : ∀ e ∈ entries, entryWF e.1 = true ∧ entryFileFound fs baseDir e.1 = true) :
    loadEntries fs baseDir entries
      = .ok (entries.filterMap
          (fun e => (resolveClass fs baseDir e.1).map (fun c => Validator.mk c e.2))) := by
  induction entries with
  | nil => rfl
  | cons e rest ih =>
    obtain ⟨vstr, params⟩ := e
    obtain ⟨hwf, hff⟩ := h _ (List.mem_cons_self _ rest)
    cases hr : rsplit1 vstr with
    | none =>
      rw [entryWF, hr] at hwf
      cases hwf
    | some pr =>
      obtain ⟨mp, cn⟩ := pr
      rw [entryWF, hr] at hwf
      rw [entryFileFound, hr] at hff
      obtain ⟨m, hm⟩ := Option.isSome_iff_exists.mp hff
      have hrest := ih (fun x hx => h x (List.mem_cons_of_mem _ hx))
      have hlen : ¬ (splitDots mp).length < 2 := by
        simp only [decide_eq_true_eq] at hwf
        omega
      cases hc : m.findClass cn with
      | some cls =>
        simp [loadEntries, hr, hm, if_neg hlen, hc, hrest, Except.map,
          List.filterMap_cons, resolveClass]
      | none =>
        simp [loadEntries, hr, hm, if_neg hlen, hc, hrest, List.filterMap_cons,
          resolveClass]

lemma loadEntries_first_missing (fs : FileSystem) (baseDir : String)
    (pre post : List (String × Dict)) (v : String × Dict)
    (hpre : ∀ e ∈ pre, entryWF e.1 = true ∧ entryFileFound fs baseDir e.1 = true)
    (hwf : entryWF v.1 = true) (hmiss : entryFileFound fs baseDir v.1 = false) :
    loadEntries fs baseDir (pre ++ v :: post)
      = .error (.fileNotFound (notFoundMsg (entryPathD baseDir v.1))) := by
  induction pre with
  | nil =>
    obtain ⟨vstr, params⟩ := v
    cases hr : rsplit1 vstr with
    | none =>
      rw [entryWF, hr] at hwf
      cases hwf
    | some pr =>
      obtain ⟨mp, cn⟩ := pr
      rw [entryFileFound, hr] at hmiss
      simp at hmiss
      simp [loadEntries, hr, hmiss, entryPathD]
  | cons e rest ih =>
    obtain ⟨vstr, params⟩ := e
    obtain ⟨hewf, heff⟩ := hpre _ (List.mem_cons_self _ rest)
    have hrestload := ih (fun x hx => hpre x (List.mem_cons_of_mem _ hx))
    cases hr : rsplit1 vstr with
    | none =>
      rw [entryWF, hr] at hewf
      cases hewf
    | some pr =>
      obtain ⟨mp, cn⟩ := pr
      rw [entryWF, hr] at hewf
      rw [entryFileFound, hr] at heff
      obtain ⟨m, hm⟩ := Option.isSome_iff_exists.mp heff
      have hlen : ¬ (splitDots mp).length < 2 := by
        simp only [decide_eq_true_eq] at hewf
        omega
      cases hc : m.findClass cn with
      | some cls =>
        simp [loadEntries, hr, hm, if_neg hlen, hc, hrestload, Except.map]
      | none =>
        simp [loadEntries, hr, hm, if_neg hlen, hc, hrestload]

/-- C3: for every validator configuration entry, a missing module file is a hard
error — the loader raises `FileNotFoundError` (for the first missing file, after any
number of loadable entries) — while an existing file whose named class is absent is
skipped silently: the loader returns the list of resolved entries with the
class-less entries omitted and raises nothing. -/
theorem c3_loader_missing_file_vs_missing_class (fs : FileSystem) (baseDir : String)
    (entries pre post : List (String × Dict)) (v : String × Dict) :
    ((∀ e ∈ entries, entryWF e.1 = true ∧ entryFileFound fs baseDir e.1 = true) →
      get_validators fs baseDir (.dict entries)
        = .ok (entries.filterMap
            (fun e => (resolveClass fs baseDir e.1).map (fun c => Validator.mk c e.2))))
    ∧ ((∀ e ∈ pre, entryWF e.1 = true ∧ entryFileFound fs baseDir e.1 = true) →
      entryWF v.1 = true → entryFileFound fs baseDir v.1 = false →
      get_validators fs baseDir (.dict (pre ++ v :: post))
        = .error (.fileNotFound (notFoundMsg (entryPathD baseDir v.1)))) :=
  ⟨fun h => loadEntries_all_found fs baseDir entries h,
   fun hpre hwf hmiss => loadEntries_first_missing fs baseDir pre post v hpre hwf hmiss⟩

theorem c3_loader_missing_file_vs_missing_class_witness :
    (∀ e ∈ [demoEntryPresent, demoEntryAbsentClass],
      entryWF e.1 = true ∧ entryFileFound demoLoaderFs "base" e.1 = true)
    ∧ get_validators demoLoaderFs "base" (.dict [demoEntryPresent, demoEntryAbsentClass])
        = .ok ([demoEntryPresent, demoEntryAbsentClass].filterMap
            (fun e => (resolveClass demoLoaderFs "base" e.1).map
              (fun c => Validator.mk c e.2)))
    ∧ get_validators demoLoaderFs "base"
          (.dict ([demoEntryPresent] ++ demoEntryMissingFile :: []))
        = .error (.fileNotFound (notFoundMsg (entryPathD "base" demoEntryMissingFile.1))) := by
  refine ⟨?_, ?_, ?_⟩
  · decide
  · exact (c3_loader_missing_file_vs_missing_class demoLoaderFs "base"
      [demoEntryPresent, demoEntryAbsentClass] [] [] demoEntryPresent).1 (by decide)
  · exact (c3_loader_missing_file_vs_missing_class demoLoaderFs "base" []
      [demoEntryPresent] [] demoEntryMissingFile).2 (by decide) (by decide) (by decide)

lemma runValidators_all_ok (vs : List Validator) (kwargs : Dict)
    (h : ∀ v ∈ vs, v.obj.construct (dictMerge v.config kwargs) = none) :
    runValidators vs kwargs = (none, vs.map (fun v => v.obj.name)) := by
  induction vs with
  | nil => rfl
  | cons v rest ih =>
    have hv := h v (List.mem_cons_self v rest)
    have hrest := ih (fun w hw => h w (List.mem_cons_of_mem v hw))
    simp [runValidators, hv, hrest]

lemma runValidators_first_raises (pre post : List Validator) (v : Validator)
    (kwargs : Dict) (msg : String)
    (hpre : ∀ w ∈ pre, w.obj.construct (dictMerge w.config kwargs) = none)
    (hv : v.obj.construct (dictMerge v.config kwargs) = some msg) :
    runValidators (pre ++ v :: post) kwargs
      = (some msg, pre.map (fun w => w.obj.name) ++ [v.obj.name]) := by
  induction pre with
  | nil => simp [runValidators, hv]
  | cons w rest ih =>
    have hw := hpre w (List.mem_cons_self w rest)
    have hrest := ih (fun x hx => hpre x (List.mem_cons_of_mem w hx))
    simp [runValidators, hw, hrest]

/-- C4 (amended): `PasswordValidatorController.validate` returns `True` when the
configuration is absent, empty or not a mapping, and — whenever loading succeeds —
returns `True` when the construction of no configured validator raises, and otherwise the
message of the first exception raised in configuration iteration order, without
constructing any later validator (the constructed-validator trace stops at the
raiser).  When loading itself raises (e.g. a configured module file is missing), the
exception propagates out of `validate` instead of a value being returned. -/
theorem c4_validate_first_failure (fs : FileSystem) (baseDir : String) (cfg : PVConfig)
    (kwargs : Dict) (vs : List Validator) :
    (cfg = .pynone ∨ cfg = .notDict ∨ cfg = .dict [] →
      validate fs baseDir cfg kwargs = .ok (Sum.inr true)
      ∧ constructedValidators fs baseDir cfg kwargs = [])
    ∧ (get_validators fs baseDir cfg = .ok vs →
      ((∀ v ∈ vs, v.obj.construct (dictMerge v.config kwargs) = none) →
        validate fs baseDir cfg kwargs = .ok (Sum.inr true)
        ∧ constructedValidators fs baseDir cfg kwargs = vs.map (fun v => v.obj.name))
      ∧ (∀ pre v post msg, vs = pre ++ v :: post →
        (∀ w ∈ pre, w.obj.construct (dictMerge w.config kwargs) = none) →
        v.obj.construct (dictMerge v.config kwargs) = some msg →
        validate fs baseDir cfg kwargs = .ok (Sum.inl msg)
        ∧ constructedValidators fs baseDir cfg kwargs
          = pre.map (fun w => w.obj.name) ++ [v.obj.name])) := by
  constructor
  · rintro (rfl | rfl | rfl)
    · exact ⟨rfl, rfl⟩
    · exact ⟨rfl, rfl⟩
    · exact ⟨rfl, rfl⟩
  · intro hget
    constructor
    · intro hall
      have hrun := runValidators_all_ok vs kwargs hall
      constructor
      · simp [validate, hget, hrun]
      · simp [constructedValidators, hget, hrun]
    · intro pre v post msg hsplit hpre hv
      subst hsplit
      have hrun := runValidators_first_raises pre post v kwargs msg hpre hv
      constructor
      · simp [validate, hget, hrun]
      · simp [constructedValidators, hget, hrun]

/-- C4 counterexample: on a configuration referencing a missing module file, no
validator construction raises (none is ever constructed), yet `validate` does not
return `Ok (True)` — the `FileNotFoundError` of the loader, which runs before the
`try` block of `validate`, propagates out of the call. -/
theorem c4_counterexample :
    validate emptyFs "base" missingCfg []
      = .error (.fileNotFound (notFoundMsg "base/api/tools/nothere.py"))
    ∧ validate emptyFs "base" missingCfg [] ≠ .ok (Sum.inr true)
    ∧ constructedValidators emptyFs "base" missingCfg [] = [] := by
  refine ⟨by decide, by decide, by decide⟩

theorem c4_validate_first_failure_witness :
    (get_validators demoFs2 "base" duoCfg
      = .ok [Validator.mk demoFailingClass [], Validator.mk demoClass []])
    ∧ validate demoFs2 "base" duoCfg [] = .ok (Sum.inl "first failure")
    ∧ constructedValidators demoFs2 "base" duoCfg [] = ["FailingValidator"]
    ∧ validate emptyFs "base" PVConfig.pynone [] = .ok (Sum.inr true) := by
  have happ := ((c4_validate_first_failure demoFs2 "base" duoCfg []
      [Validator.mk demoFailingClass [], Validator.mk demoClass []]).2 rfl).2
      [] (Validator.mk demoFailingClass []) [Validator.mk demoClass []] "first failure"
      rfl (by simp) rfl
  have hempty := (c4_validate_first_failure emptyFs "base" PVConfig.pynone []
      []).1 (Or.inl rfl)
  exact ⟨rfl, happ.1, by simpa using happ.2, hempty.1⟩

lemma dictPop_password (p : String) (fields : List (String × String))
    (hkeys : ∀ fv ∈ fields, fv.1 ≠ "password") :
    dictPop (("password", PyVal.str p) :: fieldsToDict fields) "password"
      = some (.str p, fieldsToDict fields) := by
  have hfilter : (fieldsToDict fields).filter (fun kv => kv.1 ≠ "password")
      = fieldsToDict fields := by
    rw [List.filter_eq_self]
    intro kv hkv
    obtain ⟨fv, hfv, rfl⟩ := List.mem_map.mp hkv
    simpa using hkeys fv hfv
  simp [dictPop, dictFind, List.filter_cons, hfilter]
  intro a b hab
  obtain ⟨fv, hfv, heq⟩ := List.mem_map.mp hab
  injection heq with h1 h2
  subst h1
  exact hkeys fv hfv

lemma dictFind_coefficient_none (fields : List (String × String))
    (hkeys : ∀ fv ∈ fields, fv.1 ≠ "coefficient") :
    dictFind (fieldsToDict fields) "coefficient" = none := by
  unfold dictFind
  rw [List.find?_eq_none.mpr]
  · rfl
  · intro kv hkv
    obtain ⟨fv, hfv, rfl⟩ := List.mem_map.mp hkv
    simpa using hkeys fv hfv

lemma levLoop_ok_iff (p : String) (fields : List (String × String)) :
    levLoop p (.rat (7 / 10)) (fieldsToDict fields) = .ok ()
      ↔ ∀ fv ∈ fields, ¬ similarity p fv.2 > 7 / 10 := by
  induction fields with
  | nil => simp [levLoop, fieldsToDict]
  | cons fv rest ih =>
    obtain ⟨f, v⟩ := fv
    by_cases hs : similarity p v > 7 / 10
    · simp [levLoop, fieldsToDict, toRatVal, hs]
    · have hstep : levLoop p (.rat (7 / 10)) (fieldsToDict ((f, v) :: rest))
          = levLoop p (.rat (7 / 10)) (fieldsToDict rest) := by
        simp [levLoop, fieldsToDict, toRatVal, hs]
      rw [hstep, ih]
      constructor
      · intro hrest fv hfv
        rcases List.mem_cons.mp hfv with h | h
        · rw [h]
          exact hs
        · exact hrest fv h
      · intro hall fv hfv
        exact hall fv (List.mem_cons_of_mem _ hfv)

lemma levLoop_first_offender (p : String) (pre post : List (String × String))
    (f v : String)
    (hpre : ∀ fv ∈ pre, ¬ similarity p fv.2 > 7 / 10)
    (hv : similarity p v > 7 / 10) :
    levLoop p (.rat (7 / 10)) (fieldsToDict (pre ++ (f, v) :: post))
      = .error (.valueError (levMsg f)) := by
  induction pre with
  | nil => simp [levLoop, fieldsToDict, toRatVal, hv]
  | cons fw rest ih =>
    obtain ⟨g, w⟩ := fw
    have hg := hpre (g, w) (List.mem_cons_self _ rest)
    have hrest := ih (fun x hx => hpre x (List.mem_cons_of_mem _ hx))
    simpa [levLoop, fieldsToDict, toRatVal, hg] using hrest

/-- C5: the Levenshtein validator fails exactly when the
normalized similarity ratio of some auxiliary field with the password strictly exceeds the default
coefficient 0.7, raising on the first such field in insertion order with a message
naming that field, and succeeds otherwise.  The auxiliary mapping carries comparison
strings, so its keys are distinct from the `password` and `coefficient` parameters. -/
theorem c5_levenshtein_validator (p : String) (fields : List (String × String))
    (hkeys : ∀ fv ∈ fields, fv.1 ≠ "password" ∧ fv.1 ≠ "coefficient") :
    (lev_validate (("password", PyVal.str p) :: fieldsToDict fields) = .ok ()
      ↔ ∀ fv ∈ fields, similarity p fv.2 ≤ 7 / 10)
    ∧ (∀ pre f v post, fields = pre ++ (f, v) :: post →
        (∀ fv ∈ pre, similarity p fv.2 ≤ 7 / 10) → similarity p v > 7 / 10 →
        lev_validate (("password", PyVal.str p) :: fieldsToDict fields)
          = .error (.valueError (levMsg f))) := by
  have hpop := dictPop_password p fields (fun fv hfv => (hkeys fv hfv).1)
  have hcoef := dictFind_coefficient_none fields (fun fv hfv => (hkeys fv hfv).2)
  have e0 : lev_validate (("password", PyVal.str p) :: fieldsToDict fields)
      = levLoop p (.rat (7 / 10)) (fieldsToDict fields) := by
    simp [lev_validate, hpop, hcoef]
  constructor
  · rw [e0, levLoop_ok_iff]
    constructor
    · intro h fv hfv
      exact not_lt.mp (h fv hfv)
    · intro h fv hfv
      exact not_lt.mpr (h fv hfv)
  · intro pre f v post hsplit hpre hv
    subst hsplit
    rw [e0]
    exact levLoop_first_offender p pre post f v
      (fun fv hfv => not_lt.mpr (hpre fv hfv)) hv

theorem c5_levenshtein_validator_witness :
    (∀ fv ∈ [("name", "xyzw"), ("username", "abcde")],
      fv.1 ≠ "password" ∧ fv.1 ≠ "coefficient")
    ∧ lev_validate (("password", PyVal.str "abcd")
        :: fieldsToDict [("name", "xyzw"), ("username", "abcde")])
      = .error (.valueError (levMsg "username")) := by
  have hname : similarity "abcd" "xyzw" ≤ 7 / 10 := by
    have h : levDistance "abcd" "xyzw" = 8 := by decide
    have hl : ("abcd".length + "xyzw".length : ℕ) = 8 := by decide
    simp only [similarity, h, hl]
    norm_num
  have husr : similarity "abcd" "abcde" > 7 / 10 := by
    have h : levDistance "abcd" "abcde" = 1 := by decide
    have hl : ("abcd".length + "abcde".length : ℕ) = 9 := by decide
    simp only [similarity, h, hl]
    norm_num
  refine ⟨by decide, ?_⟩
  refine (c5_levenshtein_validator "abcd" [("name", "xyzw"), ("username", "abcde")]
      (by decide)).2 [("name", "xyzw")] "username" "abcde" [] rfl ?_ husr
  intro fv hfv
  have hfv2 := List.mem_singleton.mp hfv
  rw [hfv2]
  exact hname
